import Mathlib

/-!
Verification of the instruction decoder of a 6502-class CPU emulator
(`src/cpu/decoder.rs`).  The decoder is one pure function,
`decode_opcode : u8 -> (Instructions, AddressingMode, u8, u8, OopsCycle)`,
a 151-arm match over the opcode byte that panics (after logging the
offending byte) on any unmapped byte.  We embed it shallowly: the three
Rust enums become Lean inductives, the returned tuple stays a tuple with
the `u8` length/cycle fields as `Nat` (all values are small constants,
no overflow arises), and the panic branch becomes `Except.error opcode`
— the error value records the byte that the Rust code reports via
`error!("Could not decode instruction, opcode: {:#X}", opcode)` before
panicking.
-/

/-- All possible CPU instructions, as in `enum Instructions` of the source. -/
inductive Instructions where
  | ADC -- add with carry
  | AND -- and (with accumulator)
  | ASL -- arithmetic shift left
  | BCC -- branch on carry clear
  | BCS -- branch on carry set
  | BEQ -- branch on equal (zero set)
  | BIT -- bit test
  | BMI -- branch on minus (negative set)
  | BNE -- branch on not equal (zero clear)
  | BPL -- branch on plus (negative clear)
  | BRK -- break / interrupt
  | BVC -- branch on overflow clear
  | BVS -- branch on overflow set
  | CLC -- clear carry
  | CLD -- clear decimal
  | CLI -- clear interrupt disable
  | CLV -- clear overflow
  | CMP -- compare (with accumulator)
  | CPX -- compare with X
  | CPY -- compare with Y
  | DEC -- decrement
  | DEX -- decrement X
  | DEY -- decrement Y
  | EOR -- exclusive or (with accumulator)
  | INC -- increment
  | INX -- increment X
  | INY -- increment Y
  | JMP -- jump
  | JSR -- jump subroutine
  | LDA -- load accumulator
  | LDX -- load X
  | LDY -- load Y
  | LSR -- logical shift right
  | NOP -- no operation
  | ORA -- or with accumulator
  | PHA -- push accumulator
  | PHP -- push processor status
  | PLA -- pull accumulator
  | PLP -- pull processor status
  | ROL -- rotate left
  | ROR -- rotate right
  | RTI -- return from interrupt
  | RTS -- return from subroutine
  | SBC -- subtract with carry
  | SEC -- set carry
  | SED -- set decimal
  | SEI -- set interrupt disable
  | STA -- store accumulator
  | STX -- store X
  | STY -- store Y
  | TAX -- transfer accumulator to X
  | TAY -- transfer accumulator to Y
  | TSX -- transfer stack pointer to X
  | TXA -- transfer X to accumulator
  | TXS -- transfer X to stack pointer
  | TYA -- transfer Y to accumulator
  deriving DecidableEq, Repr

/-- The 13 addressing modes, as in `enum AddressingMode` of the source
(the commented-out `INDEXED` variant of the source is omitted there too). -/
inductive AddressingMode where
  | IMPLIED      -- 1 byte
  | ABSOLUTE     -- 3 bytes
  | ABSOLUTEX
  | ABSOLUTEY
  | ZEROPAGE     -- 2 bytes
  | ZEROPAGEX
  | ZEROPAGEY
  | RELATIVE     -- 2 bytes
  | ACCUMULATOR  -- 1 byte
  | INDIRECT
  | INDIRECTX    -- 2 bytes
  | INDIRECTY    -- 2 bytes
  | IMMEDIATE    -- 2 bytes
  deriving DecidableEq, Repr

/-- Cycle-adjustment policies, as in `enum OopsCycle` of the source. -/
inductive OopsCycle where
  | NONE
  | PageBoundryCrossed
  | BranchOccursOn
  deriving DecidableEq, Repr

/-- The decode result: the tuple
`(Instructions, AddressingMode, u8, u8, OopsCycle)` returned by
`decode_opcode` (mnemonic, addressing mode, byte length, base cycles,
cycle-adjustment policy). -/
abbrev Descriptor := Instructions × AddressingMode × Nat × Nat × OopsCycle

set_option maxRecDepth 8192 in
open Instructions AddressingMode OopsCycle in
/-- Shallow embedding of `decode_opcode` (`src/cpu/decoder.rs`, lines
130-290).  Each arm is transcribed literally from the source match; the
wildcard arm, which in Rust logs the offending opcode byte and panics,
becomes `Except.error opcode`. -/
def decode_opcode (opcode : Nat) : Except Nat Descriptor :=
  if opcode = 0x00 then .ok (BRK, IMPLIED,     1, 2, NONE) else
  if opcode = 0x01 then .ok (ORA, INDIRECTX,   2, 6, NONE) else
  if opcode = 0x05 then .ok (ORA, ZEROPAGE,    2, 3, NONE) else
  if opcode = 0x06 then .ok (ASL, ZEROPAGE,    2, 5, NONE) else
  if opcode = 0x08 then .ok (PHP, IMPLIED,     1, 3, NONE) else
  if opcode = 0x09 then .ok (ORA, IMMEDIATE,   2, 2, NONE) else
  if opcode = 0x0A then .ok (ASL, ACCUMULATOR, 1, 2, NONE) else
  if opcode = 0x0D then .ok (ORA, ABSOLUTE,    3, 4, NONE) else
  if opcode = 0x0E then .ok (ASL, ABSOLUTE,    3, 6, NONE) else
  if opcode = 0x10 then .ok (BPL, RELATIVE,    2, 2, BranchOccursOn) else
  if opcode = 0x11 then .ok (ORA, INDIRECTY,   2, 5, PageBoundryCrossed) else
  if opcode = 0x15 then .ok (ORA, ZEROPAGEX,   2, 4, NONE) else
  if opcode = 0x16 then .ok (ASL, ZEROPAGEX,   2, 6, NONE) else
  if opcode = 0x18 then .ok (CLC, IMPLIED,     1, 2, NONE) else
  if opcode = 0x19 then .ok (ORA, ABSOLUTEY,   3, 4, PageBoundryCrossed) else
  if opcode = 0x1D then .ok (ORA, ABSOLUTEX,   3, 4, PageBoundryCrossed) else
  if opcode = 0x1E then .ok (ASL, ABSOLUTEX,   3, 7, NONE) else
  if opcode = 0x20 then .ok (JSR, ABSOLUTE,    3, 6, NONE) else
  if opcode = 0x21 then .ok (AND, INDIRECTX,   2, 6, NONE) else
  if opcode = 0x24 then .ok (BIT, ZEROPAGE,    2, 3, NONE) else
  if opcode = 0x25 then .ok (AND, ZEROPAGE,    2, 3, NONE) else
  if opcode = 0x26 then .ok (ROL, ZEROPAGE,    2, 5, NONE) else
  if opcode = 0x28 then .ok (PLP, IMPLIED,     1, 4, NONE) else
  if opcode = 0x29 then .ok (AND, IMMEDIATE,   2, 2, NONE) else
  if opcode = 0x2A then .ok (ROL, ACCUMULATOR, 1, 2, NONE) else
  if opcode = 0x2C then .ok (BIT, ABSOLUTE,    3, 4, NONE) else
  if opcode = 0x2D then .ok (AND, ABSOLUTE,    3, 4, NONE) else
  if opcode = 0x2E then .ok (ROL, ABSOLUTE,    3, 6, NONE) else
  if opcode = 0x30 then .ok (BMI, RELATIVE,    2, 2, BranchOccursOn) else
  if opcode = 0x31 then .ok (AND, INDIRECTY,   2, 5, PageBoundryCrossed) else
  if opcode = 0x35 then .ok (AND, ZEROPAGEX,   2, 4, NONE) else
  if opcode = 0x36 then .ok (ROL, ZEROPAGEX,   2, 6, NONE) else
  if opcode = 0x38 then .ok (SEC, IMPLIED,     1, 2, NONE) else
  if opcode = 0x39 then .ok (AND, ABSOLUTEY,   3, 4, PageBoundryCrossed) else
  if opcode = 0x3D then .ok (AND, ABSOLUTEX,   3, 4, PageBoundryCrossed) else
  if opcode = 0x3E then .ok (ROL, ABSOLUTEX,   3, 7, NONE) else
  if opcode = 0x40 then .ok (RTI, IMMEDIATE,   1, 6, NONE) else
  if opcode = 0x41 then .ok (EOR, INDIRECTX,   2, 6, NONE) else
  if opcode = 0x45 then .ok (EOR, ZEROPAGE,    2, 3, NONE) else
  if opcode = 0x46 then .ok (LSR, ZEROPAGE,    2, 5, NONE) else
  if opcode = 0x48 then .ok (PHA, IMPLIED,     1, 3, NONE) else
  if opcode = 0x49 then .ok (EOR, IMMEDIATE,   2, 2, NONE) else
  if opcode = 0x4A then .ok (LSR, ACCUMULATOR, 1, 2, NONE) else
  if opcode = 0x4C then .ok (JMP, ABSOLUTE,    3, 3, NONE) else
  if opcode = 0x4D then .ok (EOR, ABSOLUTE,    3, 4, NONE) else
  if opcode = 0x4E then .ok (LSR, ABSOLUTE,    3, 6, NONE) else
  if opcode = 0x50 then .ok (BVC, RELATIVE,    2, 2, BranchOccursOn) else
  if opcode = 0x51 then .ok (EOR, INDIRECTY,   2, 5, BranchOccursOn) else
  if opcode = 0x55 then .ok (EOR, ZEROPAGEX,   2, 4, NONE) else
  if opcode = 0x56 then .ok (LSR, ZEROPAGEX,   2, 6, NONE) else
  if opcode = 0x58 then .ok (CLI, IMPLIED,     1, 2, NONE) else
  if opcode = 0x59 then .ok (EOR, ABSOLUTEY,   3, 4, PageBoundryCrossed) else
  if opcode = 0x5D then .ok (EOR, ABSOLUTEX,   3, 4, PageBoundryCrossed) else
  if opcode = 0x5E then .ok (LSR, ABSOLUTEX,   3, 7, NONE) else
  if opcode = 0x60 then .ok (RTS, IMPLIED,     1, 6, NONE) else
  if opcode = 0x61 then .ok (ADC, INDIRECTX,   2, 6, NONE) else
  if opcode = 0x65 then .ok (ADC, ZEROPAGE,    2, 3, NONE) else
  if opcode = 0x66 then .ok (ROR, ZEROPAGE,    2, 5, NONE) else
  if opcode = 0x68 then .ok (PLA, IMPLIED,     1, 4, NONE) else
  if opcode = 0x69 then .ok (ADC, IMMEDIATE,   2, 2, NONE) else
  if opcode = 0x6A then .ok (ROR, ACCUMULATOR, 1, 2, NONE) else
  if opcode = 0x6C then .ok (JMP, INDIRECT,    3, 5, NONE) else
  if opcode = 0x6D then .ok (ADC, ABSOLUTE,    3, 4, NONE) else
  if opcode = 0x6E then .ok (ROR, ABSOLUTE,    3, 6, NONE) else
  if opcode = 0x70 then .ok (BVS, RELATIVE,    2, 2, BranchOccursOn) else
  if opcode = 0x71 then .ok (ADC, INDIRECTY,   2, 5, PageBoundryCrossed) else
  if opcode = 0x75 then .ok (ADC, ZEROPAGEX,   2, 4, NONE) else
  if opcode = 0x76 then .ok (ROR, ZEROPAGEX,   2, 6, NONE) else
  if opcode = 0x78 then .ok (SEI, IMPLIED,     1, 2, NONE) else
  if opcode = 0x79 then .ok (ADC, ABSOLUTEY,   3, 4, PageBoundryCrossed) else
  if opcode = 0x7D then .ok (ADC, ABSOLUTEX,   3, 4, PageBoundryCrossed) else
  if opcode = 0x7E then .ok (ROR, ABSOLUTEX,   3, 7, NONE) else
  if opcode = 0x81 then .ok (STA, INDIRECTX,   2, 6, NONE) else
  if opcode = 0x84 then .ok (STY, ZEROPAGE,    2, 3, NONE) else
  if opcode = 0x85 then .ok (STA, ZEROPAGE,    2, 3, NONE) else
  if opcode = 0x86 then .ok (STX, ZEROPAGE,    2, 3, NONE) else
  if opcode = 0x88 then .ok (DEY, IMPLIED,     1, 2, NONE) else
  if opcode = 0x8A then .ok (TXA, IMPLIED,     1, 2, NONE) else
  if opcode = 0x8C then .ok (STY, ABSOLUTE,    3, 4, NONE) else
  if opcode = 0x8D then .ok (STA, ABSOLUTE,    3, 4, NONE) else
  if opcode = 0x8E then .ok (STX, ABSOLUTE,    3, 4, NONE) else
  if opcode = 0x90 then .ok (BCC, RELATIVE,    2, 2, BranchOccursOn) else
  if opcode = 0x91 then .ok (STA, INDIRECTY,   2, 6, NONE) else
  if opcode = 0x94 then .ok (STY, ZEROPAGEX,   2, 4, NONE) else
  if opcode = 0x95 then .ok (STA, ZEROPAGEX,   2, 4, NONE) else
  if opcode = 0x96 then .ok (STX, ZEROPAGEY,   2, 4, NONE) else
  if opcode = 0x98 then .ok (TYA, IMPLIED,     1, 2, NONE) else
  if opcode = 0x99 then .ok (STA, ABSOLUTEY,   3, 5, NONE) else
  if opcode = 0x9A then .ok (TXS, IMPLIED,     1, 2, NONE) else
  if opcode = 0x9D then .ok (STA, ABSOLUTEX,   3, 5, NONE) else
  if opcode = 0xA0 then .ok (LDY, IMMEDIATE,   2, 2, NONE) else
  if opcode = 0xA1 then .ok (LDA, INDIRECTX,   2, 6, NONE) else
  if opcode = 0xA2 then .ok (LDX, IMMEDIATE,   2, 2, NONE) else
  if opcode = 0xA4 then .ok (LDY, ZEROPAGE,    2, 3, NONE) else
  if opcode = 0xA5 then .ok (LDA, ZEROPAGE,    2, 3, NONE) else
  if opcode = 0xA6 then .ok (LDX, ZEROPAGE,    2, 3, NONE) else
  if opcode = 0xA8 then .ok (TAY, IMPLIED,     1, 2, NONE) else
  if opcode = 0xA9 then .ok (LDA, IMMEDIATE,   2, 2, NONE) else
  if opcode = 0xAA then .ok (TAX, IMPLIED,     1, 2, NONE) else
  if opcode = 0xAC then .ok (LDY, ABSOLUTE,    3, 4, NONE) else
  if opcode = 0xAD then .ok (LDA, ABSOLUTE,    3, 4, NONE) else
  if opcode = 0xAE then .ok (LDX, ABSOLUTE,    3, 4, NONE) else
  if opcode = 0xB0 then .ok (BCS, RELATIVE,    2, 2, BranchOccursOn) else
  if opcode = 0xB1 then .ok (LDA, INDIRECTY,   2, 5, PageBoundryCrossed) else
  if opcode = 0xB4 then .ok (LDY, ZEROPAGEX,   2, 4, NONE) else
  if opcode = 0xB5 then .ok (LDA, ZEROPAGEX,   2, 4, NONE) else
  if opcode = 0xB6 then .ok (LDX, ZEROPAGEY,   2, 4, NONE) else
  if opcode = 0xB8 then .ok (CLV, IMPLIED,     1, 2, NONE) else
  if opcode = 0xB9 then .ok (LDA, ABSOLUTEY,   3, 4, PageBoundryCrossed) else
  if opcode = 0xBA then .ok (TSX, IMPLIED,     1, 2, NONE) else
  if opcode = 0xBC then .ok (LDY, ABSOLUTEX,   3, 4, PageBoundryCrossed) else
  if opcode = 0xBD then .ok (LDA, ABSOLUTEX,   3, 4, PageBoundryCrossed) else
  if opcode = 0xBE then .ok (LDX, ABSOLUTEY,   3, 4, PageBoundryCrossed) else
  if opcode = 0xC0 then .ok (CPY, IMMEDIATE,   2, 2, NONE) else
  if opcode = 0xC1 then .ok (CMP, INDIRECTX,   2, 6, NONE) else
  if opcode = 0xC4 then .ok (CPY, ZEROPAGE,    2, 3, NONE) else
  if opcode = 0xC5 then .ok (CMP, ZEROPAGE,    2, 3, NONE) else
  if opcode = 0xC6 then .ok (DEC, ZEROPAGE,    2, 5, NONE) else
  if opcode = 0xC8 then .ok (INY, IMPLIED,     1, 2, NONE) else
  if opcode = 0xC9 then .ok (CMP, IMMEDIATE,   2, 2, NONE) else
  if opcode = 0xCA then .ok (DEX, IMPLIED,     1, 2, NONE) else
  if opcode = 0xCC then .ok (CPY, ABSOLUTE,    3, 4, NONE) else
  if opcode = 0xCD then .ok (CMP, ABSOLUTE,    3, 4, NONE) else
  if opcode = 0xCE then .ok (DEC, ABSOLUTE,    3, 6, NONE) else
  if opcode = 0xD0 then .ok (BNE, RELATIVE,    2, 2, BranchOccursOn) else
  if opcode = 0xD1 then .ok (CMP, INDIRECTY,   2, 5, PageBoundryCrossed) else
  if opcode = 0xD5 then .ok (CMP, ZEROPAGEX,   2, 4, NONE) else
  if opcode = 0xD6 then .ok (DEC, ZEROPAGEX,   2, 6, NONE) else
  if opcode = 0xD8 then .ok (CLD, IMPLIED,     1, 2, NONE) else
  if opcode = 0xD9 then .ok (CMP, ABSOLUTEY,   3, 4, PageBoundryCrossed) else
  if opcode = 0xDD then .ok (CMP, ABSOLUTEX,   3, 4, PageBoundryCrossed) else
  if opcode = 0xDE then .ok (DEC, ABSOLUTEX,   3, 7, NONE) else
  if opcode = 0xE0 then .ok (CPX, IMMEDIATE,   2, 2, NONE) else
  if opcode = 0xE1 then .ok (SBC, INDIRECTX,   2, 6, NONE) else
  if opcode = 0xE4 then .ok (CPX, ZEROPAGE,    2, 3, NONE) else
  if opcode = 0xE5 then .ok (SBC, ZEROPAGE,    2, 3, NONE) else
  if opcode = 0xE6 then .ok (INC, ZEROPAGE,    2, 5, NONE) else
  if opcode = 0xE8 then .ok (INX, IMPLIED,     1, 2, NONE) else
  if opcode = 0xE9 then .ok (SBC, IMMEDIATE,   2, 2, NONE) else
  if opcode = 0xEA then .ok (NOP, IMPLIED,     1, 2, NONE) else
  if opcode = 0xEC then .ok (CPX, ABSOLUTE,    3, 4, NONE) else
  if opcode = 0xED then .ok (SBC, ABSOLUTE,    3, 4, NONE) else
  if opcode = 0xEE then .ok (INC, ABSOLUTE,    3, 6, NONE) else
  if opcode = 0xF0 then .ok (BEQ, RELATIVE,    2, 2, BranchOccursOn) else
  if opcode = 0xF1 then .ok (SBC, INDIRECTY,   2, 5, PageBoundryCrossed) else
  if opcode = 0xF5 then .ok (SBC, ZEROPAGEX,   2, 4, NONE) else
  if opcode = 0xF6 then .ok (INC, ZEROPAGEX,   2, 6, NONE) else
  if opcode = 0xF8 then .ok (SED, IMPLIED,     1, 2, NONE) else
  if opcode = 0xF9 then .ok (SBC, ABSOLUTEY,   3, 4, PageBoundryCrossed) else
  if opcode = 0xFD then .ok (SBC, ABSOLUTEX,   3, 4, PageBoundryCrossed) else
  if opcode = 0xFE then .ok (INC, ABSOLUTEX,   3, 7, NONE) else
  .error opcode

/-- Whether `decode_opcode` returns a descriptor (rather than the fatal
illegal-opcode condition) for the given byte. -/
def isLegalOpcode (x : Nat) : Bool :=
  match decode_opcode x with
  | .ok _ => true
  | .error _ => false

example : decode_opcode 0x00 = .ok (.BRK, .IMPLIED, 1, 2, .NONE) := rfl
example : decode_opcode 0x02 = .error 0x02 := rfl
example : isLegalOpcode 0xBD = true := rfl

/-- The mnemonic component of a decode result. -/
def mnem (d : Descriptor) : Instructions := d.1

/-- The addressing-mode component of a decode result. -/
def mode (d : Descriptor) : AddressingMode := d.2.1

/-- The byte-length component of a decode result. -/
def byteLen (d : Descriptor) : Nat := d.2.2.1

/-- The base-cycle-count component of a decode result. -/
def cycles (d : Descriptor) : Nat := d.2.2.2.1

/-- The cycle-adjustment-policy component of a decode result. -/
def oops (d : Descriptor) : OopsCycle := d.2.2.2.2

/-- `okSat p e` holds when every descriptor a successful decode returns
satisfies the boolean predicate `p` (vacuously true on the error case). -/
def okSat (p : Descriptor → Bool) (e : Except Nat Descriptor) : Bool :=
  match e with
  | .ok d => p d
  | .error _ => true

theorem okSat_ok {p : Descriptor → Bool} {e : Except Nat Descriptor}
    (h : okSat p e = true) {d : Descriptor} (hd : e = .ok d) : p d = true := by
  subst hd; exact h

/-- The 151 opcode byte values that have an arm in the source match of
`decode_opcode` (every non-wildcard pattern of `src/cpu/decoder.rs`,
lines 132-282, in source order). -/
def legalOpcodes : List Nat :=
  [0x00, 0x01, 0x05, 0x06, 0x08, 0x09, 0x0A, 0x0D, 0x0E, 0x10,
   0x11, 0x15, 0x16, 0x18, 0x19, 0x1D, 0x1E, 0x20, 0x21, 0x24,
   0x25, 0x26, 0x28, 0x29, 0x2A, 0x2C, 0x2D, 0x2E, 0x30, 0x31,
   0x35, 0x36, 0x38, 0x39, 0x3D, 0x3E, 0x40, 0x41, 0x45, 0x46,
   0x48, 0x49, 0x4A, 0x4C, 0x4D, 0x4E, 0x50, 0x51, 0x55, 0x56,
   0x58, 0x59, 0x5D, 0x5E, 0x60, 0x61, 0x65, 0x66, 0x68, 0x69,
   0x6A, 0x6C, 0x6D, 0x6E, 0x70, 0x71, 0x75, 0x76, 0x78, 0x79,
   0x7D, 0x7E, 0x81, 0x84, 0x85, 0x86, 0x88, 0x8A, 0x8C, 0x8D,
   0x8E, 0x90, 0x91, 0x94, 0x95, 0x96, 0x98, 0x99, 0x9A, 0x9D,
   0xA0, 0xA1, 0xA2, 0xA4, 0xA5, 0xA6, 0xA8, 0xA9, 0xAA, 0xAC,
   0xAD, 0xAE, 0xB0, 0xB1, 0xB4, 0xB5, 0xB6, 0xB8, 0xB9, 0xBA,
   0xBC, 0xBD, 0xBE, 0xC0, 0xC1, 0xC4, 0xC5, 0xC6, 0xC8, 0xC9,
   0xCA, 0xCC, 0xCD, 0xCE, 0xD0, 0xD1, 0xD5, 0xD6, 0xD8, 0xD9,
   0xDD, 0xDE, 0xE0, 0xE1, 0xE4, 0xE5, 0xE6, 0xE8, 0xE9, 0xEA,
   0xEC, 0xED, 0xEE, 0xF0, 0xF1, 0xF5, 0xF6, 0xF8, 0xF9, 0xFD,
   0xFE]

/-- Modelled from the spec: the instruction byte length that the spec's
addressing-mode table (section 3 invariant and section 4.2) mandates for
each addressing mode: implied/accumulator take 1 byte; zero-page
variants, relative, indirect-indexed and immediate take 2; absolute
variants and indirect take 3. -/
def modeLength : AddressingMode → Nat
  | .IMPLIED => 1
  | .ACCUMULATOR => 1
  | .ZEROPAGE => 2
  | .ZEROPAGEX => 2
  | .ZEROPAGEY => 2
  | .RELATIVE => 2
  | .INDIRECTX => 2
  | .INDIRECTY => 2
  | .IMMEDIATE => 2
  | .ABSOLUTE => 3
  | .ABSOLUTEX => 3
  | .ABSOLUTEY => 3
  | .INDIRECT => 3

instance {ε α : Type} [DecidableEq ε] [DecidableEq α] :
    DecidableEq (Except ε α) := fun a b =>
  match a, b with
  | .error a, .error b => decidable_of_iff (a = b) (by simp)
  | .ok a, .ok b => decidable_of_iff (a = b) (by simp)
  | .error _, .ok _ => .isFalse (fun h => Except.noConfusion h)
  | .ok _, .error _ => .isFalse (fun h => Except.noConfusion h)

set_option maxRecDepth 8192 in
theorem decode_error_of_not_legal :
    ∀ x : Fin 256,
      decide (x.val ∈ legalOpcodes) = true ∨
        decode_opcode x.val = Except.error x.val := by decide

set_option maxRecDepth 8192 in
/-- C1: the claim states that byte length is fully determined by the
addressing mode (implied/accumulator give 1; zero-page variants,
relative, indirect-X, indirect-Y and immediate give 2; absolute
variants and indirect give 3).  The code violates this at exactly one
opcode: 0x40 (RTI) is labelled with the immediate addressing mode yet
carries byte length 1 (the table mandates 2 for immediate); every other
legal opcode satisfies the table. -/
theorem C1_mode_determines_length_fails_at_0x40 :
    decode_opcode 0x40 =
      Except.ok (Instructions.RTI, AddressingMode.IMMEDIATE, 1, 6, OopsCycle.NONE) ∧
    modeLength AddressingMode.IMMEDIATE = 2 ∧
    (∀ x : Fin 256, x.val = 0x40 ∨
      okSat (fun d => decide (byteLen d = modeLength (mode d)))
        (decode_opcode x.val) = true) :=
  ⟨rfl, rfl, by decide⟩

/-- C2: decoding 0xBD yields (LDA, absolute-X, length 3, base 4 cycles,
page-boundary-crossed policy) and decoding 0xF0 yields (BEQ, relative,
length 2, base 2 cycles, branch-taken policy). -/
theorem C2_decode_0xBD_and_0xF0 :
    decode_opcode 0xBD =
      Except.ok (Instructions.LDA, AddressingMode.ABSOLUTEX, 3, 4,
        OopsCycle.PageBoundryCrossed) ∧
    decode_opcode 0xF0 =
      Except.ok (Instructions.BEQ, AddressingMode.RELATIVE, 2, 2,
        OopsCycle.BranchOccursOn) :=
  ⟨rfl, rfl⟩

set_option maxRecDepth 8192 in
/-- C3: decode_opcode succeeds on exactly 151 of the 256 byte values and
fails (with the fatal illegal-opcode condition carrying the offending
byte) on every other byte value. -/
theorem C3_exactly_151_legal_opcodes :
    ((List.range 256).countP fun x => isLegalOpcode x) = 151 ∧
    (∀ x : Fin 256, isLegalOpcode x.val = true ∨
      decode_opcode x.val = Except.error x.val) :=
  ⟨by rfl, by decide⟩

/-- C4: for every byte value outside the legal opcode set,
decode_opcode signals the fatal illegal-opcode condition reporting the
offending byte value (the error carries the byte, as the source logs it
before panicking), and never returns a descriptor claiming success. -/
theorem C4_illegal_opcode_is_fatal :
    ∀ x : Fin 256, x.val ∉ legalOpcodes →
      decode_opcode x.val = Except.error x.val ∧
      ∀ d : Descriptor, decode_opcode x.val ≠ Except.ok d := by
  intro x hx
  rcases decode_error_of_not_legal x with h | h
  · exact absurd (of_decide_eq_true h) hx
  · exact ⟨h, fun d hd => by rw [h] at hd; exact Except.noConfusion hd⟩

/-- C4, witnessed at the illegal byte 0x02: decoding it produces the
fatal error carrying 0x02. -/
theorem C4_illegal_opcode_is_fatal_witness :
    decode_opcode 0x02 = Except.error 0x02 :=
  (C4_illegal_opcode_is_fatal ⟨0x02, by decide⟩ (by decide)).1

set_option maxRecDepth 8192 in
/-- C5: the claim states that the branch-taken cycle-adjustment policy
appears only on conditional branches (relative addressing mode).  The
code violates this at exactly one opcode: 0x51 (EOR indirect-Y, not a
branch) carries the BranchOccursOn tag; every other legal opcode with
the BranchOccursOn tag has relative addressing mode. -/
theorem C5_branch_tag_fails_at_0x51 :
    decode_opcode 0x51 =
      Except.ok (Instructions.EOR, AddressingMode.INDIRECTY, 2, 5,
        OopsCycle.BranchOccursOn) ∧
    (∀ x : Fin 256, x.val = 0x51 ∨
      okSat (fun d => decide (oops d = OopsCycle.BranchOccursOn →
          mode d = AddressingMode.RELATIVE))
        (decode_opcode x.val) = true) :=
  ⟨rfl, by decide⟩

set_option maxRecDepth 8192 in
theorem decode_pageCross_modes_all :
    ∀ x : Fin 256,
      okSat (fun d => decide (oops d = OopsCycle.PageBoundryCrossed →
          (mode d = AddressingMode.ABSOLUTEX ∨
           mode d = AddressingMode.ABSOLUTEY ∨
           mode d = AddressingMode.INDIRECTY)))
        (decode_opcode x.val) = true := by decide

/-- C6: every legal opcode whose descriptor carries the
page-boundary-crossed policy has addressing mode absolute-X, absolute-Y
or indirect-Y. -/
theorem C6_pageCross_only_on_indexed_modes :
    ∀ x : Fin 256, ∀ d : Descriptor, decode_opcode x.val = Except.ok d →
      oops d = OopsCycle.PageBoundryCrossed →
      (mode d = AddressingMode.ABSOLUTEX ∨
       mode d = AddressingMode.ABSOLUTEY ∨
       mode d = AddressingMode.INDIRECTY) :=
  fun x _ hd =>
    of_decide_eq_true (okSat_ok (decode_pageCross_modes_all x) hd)

/-- C6, witnessed at 0xBD (LDA absolute-X, page-boundary-crossed). -/
theorem C6_pageCross_only_on_indexed_modes_witness :
    mode (Instructions.LDA, AddressingMode.ABSOLUTEX, 3, 4,
        OopsCycle.PageBoundryCrossed) = AddressingMode.ABSOLUTEX ∨
    mode (Instructions.LDA, AddressingMode.ABSOLUTEX, 3, 4,
        OopsCycle.PageBoundryCrossed) = AddressingMode.ABSOLUTEY ∨
    mode (Instructions.LDA, AddressingMode.ABSOLUTEX, 3, 4,
        OopsCycle.PageBoundryCrossed) = AddressingMode.INDIRECTY :=
  C6_pageCross_only_on_indexed_modes ⟨0xBD, by decide⟩
    (Instructions.LDA, AddressingMode.ABSOLUTEX, 3, 4,
      OopsCycle.PageBoundryCrossed) rfl rfl

set_option maxRecDepth 8192 in
theorem decode_ranges_all :
    ∀ x : Fin 256,
      okSat (fun d => decide (1 ≤ byteLen d ∧ byteLen d ≤ 3 ∧
          2 ≤ cycles d ∧ cycles d ≤ 7))
        (decode_opcode x.val) = true := by decide

/-- C7: every legal opcode decodes to a descriptor whose byte length is
between 1 and 3 and whose base cycle count is between 2 and 7. -/
theorem C7_length_and_cycle_ranges :
    ∀ x : Fin 256, ∀ d : Descriptor, decode_opcode x.val = Except.ok d →
      1 ≤ byteLen d ∧ byteLen d ≤ 3 ∧ 2 ≤ cycles d ∧ cycles d ≤ 7 :=
  fun x _ hd => of_decide_eq_true (okSat_ok (decode_ranges_all x) hd)

/-- C7, witnessed at 0x00 (BRK, length 1, 2 cycles). -/
theorem C7_length_and_cycle_ranges_witness :
    1 ≤ byteLen (Instructions.BRK, AddressingMode.IMPLIED, 1, 2,
        OopsCycle.NONE) ∧
    byteLen (Instructions.BRK, AddressingMode.IMPLIED, 1, 2,
        OopsCycle.NONE) ≤ 3 ∧
    2 ≤ cycles (Instructions.BRK, AddressingMode.IMPLIED, 1, 2,
        OopsCycle.NONE) ∧
    cycles (Instructions.BRK, AddressingMode.IMPLIED, 1, 2,
        OopsCycle.NONE) ≤ 7 :=
  C7_length_and_cycle_ranges ⟨0x00, by decide⟩
    (Instructions.BRK, AddressingMode.IMPLIED, 1, 2, OopsCycle.NONE) rfl

/-- C8: decode_opcode is a pure function of the opcode byte alone, so two
calls on the same byte yield identical results — determinism holds by the
referential transparency of the embedding (the Rust function reads no
mutable or global state). -/
theorem C8_deterministic : ∀ x : Nat, decode_opcode x = decode_opcode x :=
  fun _ => rfl

set_option maxRecDepth 8192 in
theorem decode_store_policy_all :
    ∀ x : Fin 256,
      okSat (fun d => decide ((mnem d = Instructions.STA ∨
          mnem d = Instructions.STX ∨ mnem d = Instructions.STY) →
          oops d = OopsCycle.NONE))
        (decode_opcode x.val) = true := by decide

/-- C9: every store descriptor (STA, STX, STY) carries the policy NONE —
stores never receive a page-crossing penalty — and in particular the
indexed stores 0x9D and 0x99 have a fixed base of 5 cycles and 0x91 a
fixed base of 6 cycles. -/
theorem C9_stores_have_no_cycle_adjustment :
    (∀ x : Fin 256, ∀ d : Descriptor, decode_opcode x.val = Except.ok d →
      (mnem d = Instructions.STA ∨ mnem d = Instructions.STX ∨
        mnem d = Instructions.STY) →
      oops d = OopsCycle.NONE) ∧
    decode_opcode 0x9D =
      Except.ok (Instructions.STA, AddressingMode.ABSOLUTEX, 3, 5,
        OopsCycle.NONE) ∧
    decode_opcode 0x99 =
      Except.ok (Instructions.STA, AddressingMode.ABSOLUTEY, 3, 5,
        OopsCycle.NONE) ∧
    decode_opcode 0x91 =
      Except.ok (Instructions.STA, AddressingMode.INDIRECTY, 2, 6,
        OopsCycle.NONE) :=
  ⟨fun x _ hd => of_decide_eq_true (okSat_ok (decode_store_policy_all x) hd),
   rfl, rfl, rfl⟩

/-- C9, witnessed at 0x9D (STA absolute-X): its policy is NONE. -/
theorem C9_stores_have_no_cycle_adjustment_witness :
    oops (Instructions.STA, AddressingMode.ABSOLUTEX, 3, 5,
        OopsCycle.NONE) = OopsCycle.NONE :=
  C9_stores_have_no_cycle_adjustment.1 ⟨0x9D, by decide⟩
    (Instructions.STA, AddressingMode.ABSOLUTEX, 3, 5, OopsCycle.NONE)
    rfl (Or.inl rfl)

set_option maxRecDepth 8192 in
theorem decode_relative_all :
    ∀ x : Fin 256,
      okSat (fun d => decide (mode d = AddressingMode.RELATIVE →
          ((mnem d = Instructions.BPL ∨ mnem d = Instructions.BMI ∨
            mnem d = Instructions.BVC ∨ mnem d = Instructions.BVS ∨
            mnem d = Instructions.BCC ∨ mnem d = Instructions.BCS ∨
            mnem d = Instructions.BNE ∨ mnem d = Instructions.BEQ) ∧
           byteLen d = 2 ∧ cycles d = 2 ∧
           oops d = OopsCycle.BranchOccursOn)))
        (decode_opcode x.val) = true := by decide

/-- C10: every relative-mode descriptor is one of the eight conditional
branches (BPL, BMI, BVC, BVS, BCC, BCS, BNE, BEQ) with byte length 2,
base cycle count 2 and the branch-taken policy. -/
theorem C10_relative_is_conditional_branch :
    ∀ x : Fin 256, ∀ d : Descriptor, decode_opcode x.val = Except.ok d →
      mode d = AddressingMode.RELATIVE →
      ((mnem d = Instructions.BPL ∨ mnem d = Instructions.BMI ∨
        mnem d = Instructions.BVC ∨ mnem d = Instructions.BVS ∨
        mnem d = Instructions.BCC ∨ mnem d = Instructions.BCS ∨
        mnem d = Instructions.BNE ∨ mnem d = Instructions.BEQ) ∧
       byteLen d = 2 ∧ cycles d = 2 ∧
       oops d = OopsCycle.BranchOccursOn) :=
  fun x _ hd => of_decide_eq_true (okSat_ok (decode_relative_all x) hd)

/-- C10, witnessed at 0xF0 (BEQ relative). -/
theorem C10_relative_is_conditional_branch_witness :
    ((mnem (Instructions.BEQ, AddressingMode.RELATIVE, 2, 2,
        OopsCycle.BranchOccursOn) = Instructions.BPL ∨
      mnem (Instructions.BEQ, AddressingMode.RELATIVE, 2, 2,
        OopsCycle.BranchOccursOn) = Instructions.BMI ∨
      mnem (Instructions.BEQ, AddressingMode.RELATIVE, 2, 2,
        OopsCycle.BranchOccursOn) = Instructions.BVC ∨
      mnem (Instructions.BEQ, AddressingMode.RELATIVE, 2, 2,
        OopsCycle.BranchOccursOn) = Instructions.BVS ∨
      mnem (Instructions.BEQ, AddressingMode.RELATIVE, 2, 2,
        OopsCycle.BranchOccursOn) = Instructions.BCC ∨
      mnem (Instructions.BEQ, AddressingMode.RELATIVE, 2, 2,
        OopsCycle.BranchOccursOn) = Instructions.BCS ∨
      mnem (Instructions.BEQ, AddressingMode.RELATIVE, 2, 2,
        OopsCycle.BranchOccursOn) = Instructions.BNE ∨
      mnem (Instructions.BEQ, AddressingMode.RELATIVE, 2, 2,
        OopsCycle.BranchOccursOn) = Instructions.BEQ) ∧
     byteLen (Instructions.BEQ, AddressingMode.RELATIVE, 2, 2,
        OopsCycle.BranchOccursOn) = 2 ∧
     cycles (Instructions.BEQ, AddressingMode.RELATIVE, 2, 2,
        OopsCycle.BranchOccursOn) = 2 ∧
     oops (Instructions.BEQ, AddressingMode.RELATIVE, 2, 2,
        OopsCycle.BranchOccursOn) = OopsCycle.BranchOccursOn) :=
  C10_relative_is_conditional_branch ⟨0xF0, by decide⟩
    (Instructions.BEQ, AddressingMode.RELATIVE, 2, 2,
      OopsCycle.BranchOccursOn) rfl rfl
